import Mathlib

/-!
Verification of the gateway payload model (`src/model/gateway.rs`).

The repository slice under verification is the gateway model file of a
Discord client library: activity records, their enumerated kind, bit
flags, buttons, presence user views and the session-bootstrap record.
Pure Rust functions are embedded as Lean functions; serde-driven
decoding helpers that live outside the provided slice (the
`enum_number!` macro expansion, the bitflag serde impls, the
`deserialize_buttons`, `discriminator` and keyed-collection serde
modules, and the external `url` crate parser) are modelled from the
specification, each marked `Modelled from the spec:` in its doc
comment.
-/

namespace Gateway

/-- The activity kind enumeration, from `ActivityType` in
`src/model/gateway.rs` (lines 371-386).  `Unknown` carries the Rust
discriminant `!0`; the discriminants of the named variants are the
ordinals 0..=5 of declaration. -/
inductive ActivityType where
  | Playing
  | Streaming
  | Listening
  | Watching
  | Custom
  | Competing
  | Unknown
  deriving DecidableEq

/-- The Rust discriminant of each `ActivityType` variant, as declared in
the source (`Playing = 0`, ..., `Competing = 5`, `Unknown = !0`,
i.e. `u64::MAX = 2^64 - 1`). -/
def ActivityType.code : ActivityType → Nat
  | .Playing => 0
  | .Streaming => 1
  | .Listening => 2
  | .Watching => 3
  | .Custom => 4
  | .Competing => 5
  | .Unknown => 2 ^ 64 - 1

/-- Modelled from the spec: the decoder generated by the
`enum_number!(ActivityType { Playing, Streaming, Listening, Watching,
Custom, Competing })` invocation (line 388), whose macro body is not in
the provided slice.  Per the spec (section 4.1), each integer in the
known contiguous range maps to the variant of that ordinal and every
other integer (including negative-as-unsigned sentinel values) maps to
`Unknown`; the decode is total and never fails. -/
def decode_kind (c : Int) : ActivityType :=
  if c = 0 then .Playing
  else if c = 1 then .Streaming
  else if c = 2 then .Listening
  else if c = 3 then .Watching
  else if c = 4 then .Custom
  else if c = 5 then .Competing
  else .Unknown

/-- `Default for ActivityType` (`src/model/gateway.rs` lines 397-401):
the default is `Playing`. -/
def ActivityType.default : ActivityType := .Playing

/-- Modelled from the spec: serde's `#[serde(default)]` handling of the
`type` field on `Activity` (line 46): an absent wire field decodes to
`ActivityType::default()`, a present integer is decoded with the
resilient enum codec. -/
def decode_kind_field (w : Option Int) : ActivityType :=
  match w with
  | none => ActivityType.default
  | some c => decode_kind c

/-- Activity flag set, from the `bitflags!` invocation for
`ActivityFlags: u64` (`src/model/gateway.rs` lines 301-326).  The
carrier is the raw 64-bit integer. -/
structure ActivityFlags where
  bits : Nat
  deriving DecidableEq

def ActivityFlags.INSTANCE : Nat := 1 <<< 0
def ActivityFlags.JOIN : Nat := 1 <<< 1
def ActivityFlags.SPECTATE : Nat := 1 <<< 2
def ActivityFlags.JOIN_REQUEST : Nat := 1 <<< 3
def ActivityFlags.SYNC : Nat := 1 <<< 4
def ActivityFlags.PLAY : Nat := 1 <<< 5
def ActivityFlags.PARTY_PRIVACY_FRIENDS : Nat := 1 <<< 6
def ActivityFlags.PARTY_PRIVACY_VOICE_CHANNEL : Nat := 1 <<< 7
def ActivityFlags.EMBEDDED : Nat := 1 <<< 8

/-- Modelled from the spec: the flag decoder (the serde impl attached by
the repository's `bitflags!` wrapper is not in the provided slice).
Per the spec (section 4.2) the wire integer is a `u64` and every bit,
named or not, is retained internally. -/
def ActivityFlags.decode (f : Nat) : ActivityFlags :=
  ⟨f % 2 ^ 64⟩

/-- Modelled from the spec: the flag encoder emits the retained bits
unchanged. -/
def ActivityFlags.encode (s : ActivityFlags) : Nat :=
  s.bits

/-- C1: for every wire integer in 0..=5 the activity-kind decode returns
the named variant of that ordinal; for every integer outside that range
it returns `Unknown`.  The decode is a total Lean function of an
arbitrary integer, so it never fails. -/
theorem decode_kind_resilient :
    decode_kind 0 = .Playing ∧ decode_kind 1 = .Streaming ∧
    decode_kind 2 = .Listening ∧ decode_kind 3 = .Watching ∧
    decode_kind 4 = .Custom ∧ decode_kind 5 = .Competing ∧
    ∀ c : Int, decode_kind c = .Unknown ↔ (c < 0 ∨ 5 < c) := by
  refine ⟨rfl, rfl, rfl, rfl, rfl, rfl, ?_⟩
  intro c
  unfold decode_kind
  split <;> rename_i h0
  · simp [h0]
  · split <;> rename_i h1
    · simp [h1]
    · split <;> rename_i h2
      · simp [h2]
      · split <;> rename_i h3
        · simp [h3]
        · split <;> rename_i h4
          · simp [h4]
          · split <;> rename_i h5
            · simp [h5]
            · simp only [true_iff]
              omega

/-- C2: encoding the decoded flag value reproduces every 64-bit wire
integer bit-for-bit, including bit positions outside the nine named
flags. -/
theorem flags_roundtrip (f : Nat) (h : f < 2 ^ 64) :
    ActivityFlags.encode (ActivityFlags.decode f) = f := by
  simp only [ActivityFlags.encode, ActivityFlags.decode]
  omega

/-- Witness for C2 at a concrete wire integer carrying the unnamed bit
10 alongside the named bits 0 and 8. -/
theorem flags_roundtrip_witness :
    (1281 : Nat) < 2 ^ 64 ∧
    ActivityFlags.encode (ActivityFlags.decode 1281) = 1281 :=
  ⟨by decide, flags_roundtrip 1281 (by decide)⟩

/-- C9: when the `type` field is entirely absent from the wire input,
decoding yields the first-declared variant `Playing`, not `Unknown`. -/
theorem decode_kind_absent_default :
    decode_kind_field none = .Playing ∧ decode_kind_field none ≠ .Unknown := by
  exact ⟨rfl, by decide⟩

/-- A JSON value, the wire representation fed to the decoders. -/
inductive Json where
  | null
  | bool (b : Bool)
  | num (n : Int)
  | str (s : String)
  | arr (xs : List Json)
  | obj (fields : List (String × Json))

/-- Look up a member of a JSON object by name (first occurrence). -/
def Json.getMember (fields : List (String × Json)) (k : String) : Option Json :=
  match fields with
  | [] => none
  | (k0, v) :: rest => if k0 = k then some v else Json.getMember rest k

/-- Decode errors surfaced by the payload decoders.  `structural` is the
shape-mismatch error of the spec's taxonomy (section 7). -/
inductive DecodeError where
  | structural
  | missingField
  deriving DecidableEq

/-- An activity button, from `ActivityButton` in `src/model/gateway.rs`
(lines 275-283): required `label`, `url` defaulting to the empty string
when absent on the wire. -/
structure ActivityButton where
  label : String
  url : String
  deriving DecidableEq

/-- Modelled from the spec: decoding of one element of the `buttons`
wire list by `deserialize_buttons` (referenced at line 74, body not in
the provided slice).  Per the spec (section 4.3) an element may be a
plain string (legacy shape: the string is the label, the url implicitly
empty) or an object with a required `label` string and an optional
`url` string; any other shape is a structural decode error. -/
def decode_button (v : Json) : Except DecodeError ActivityButton :=
  match v with
  | .str s => .ok ⟨s, ""⟩
  | .obj fields =>
    match Json.getMember fields "label" with
    | some (.str label) =>
      match Json.getMember fields "url" with
      | some (.str url) => .ok ⟨label, url⟩
      | none => .ok ⟨label, ""⟩
      | some _ => .error .structural
    | some _ => .error .structural
    | none => .error .structural
  | _ => .error .structural

/-- Modelled from the spec: `deserialize_buttons` over the whole field.
A `null` or absent field decodes to the empty list; a list decodes
element-wise, the first failing element failing the whole decode; a
non-list, non-null value is a structural error. -/
def decode_buttons (w : Option Json) : Except DecodeError (List ActivityButton) :=
  match w with
  | none => .ok []
  | some .null => .ok []
  | some (.arr xs) => xs.mapM decode_button
  | some _ => .error .structural

/-- C3: the buttons field decodes to the empty list when null or
absent; a list of plain strings decodes to buttons with empty urls; a
list of label/url objects decodes to the corresponding buttons; and an
element that is neither shape (the number 42) is a structural decode
error. -/
theorem decode_buttons_shapes :
    decode_buttons none = .ok [] ∧
    decode_buttons (some .null) = .ok [] ∧
    decode_buttons (some (.arr [])) = .ok [] ∧
    decode_buttons (some (.arr [.str "go"])) = .ok [⟨"go", ""⟩] ∧
    decode_buttons (some (.arr [.obj [("label", .str "go"), ("url", .str "http://x")]]))
      = .ok [⟨"go", "http://x"⟩] ∧
    decode_buttons (some (.arr [.num 42])) = .error .structural := by
  exact ⟨rfl, rfl, rfl, rfl, rfl, rfl⟩

/-- Snowflake identifier newtypes (`UserId`, `ChannelId`, ...) are
64-bit integers; modelled as `Nat`. -/
abbrev UserId := Nat

/-- Public user flags (`UserPublicFlags`, a bitflags set declared
outside the provided slice); modelled as the raw bit integer. -/
structure UserPublicFlags where
  bits : Nat
  deriving DecidableEq

/-- Modelled from the spec: the canonical user record (`User`, declared
outside the provided slice).  Fields as enumerated by the spec
(section 3): identifier, name, discriminator, bot flag, avatar, public
flags, plus banner, accent colour and a guild-membership
back-reference not present on the partial view. -/
structure User where
  id : UserId
  avatar : Option String
  bot : Bool
  discriminator : Nat
  name : String
  public_flags : Option UserPublicFlags
  banner : Option String
  accent_colour : Option Nat
  member : Option Unit
  deriving DecidableEq

/-- The partial user view carried by presence updates, from
`PresenceUser` in `src/model/gateway.rs` (lines 431-443). -/
structure PresenceUser where
  id : UserId
  avatar : Option String
  bot : Option Bool
  discriminator : Option Nat
  email : Option String
  mfa_enabled : Option Bool
  name : Option String
  verified : Option Bool
  public_flags : Option UserPublicFlags
  deriving DecidableEq

/-- `PresenceUser::into_user` (`src/model/gateway.rs` lines 450-462):
the consuming narrowing conversion.  The Rust `?` operator on the
`bot`, `discriminator` and `name` options is embedded as `Option`
binds; all other fields are moved across unchanged, with `banner`,
`accent_colour` and `member` set to `None`. -/
def PresenceUser.into_user (self : PresenceUser) : Option User := do
  let bot ← self.bot
  let discriminator ← self.discriminator
  let name ← self.name
  pure {
    avatar := self.avatar
    bot
    discriminator
    id := self.id
    name
    public_flags := self.public_flags
    banner := none
    accent_colour := none
    member := none
  }

/-- `PresenceUser::to_user` (`src/model/gateway.rs` lines 470-482): the
non-consuming narrowing conversion; it clones `avatar` and `name`
instead of moving them, which in the value semantics of the embedding
is the identity. -/
def PresenceUser.to_user (self : PresenceUser) : Option User := do
  let bot ← self.bot
  let discriminator ← self.discriminator
  let name ← self.name
  pure {
    avatar := self.avatar
    bot
    discriminator
    id := self.id
    name
    public_flags := self.public_flags
    banner := none
    accent_colour := none
    member := none
  }

/-- `PresenceUser::update_with_user` (`src/model/gateway.rs` lines
485-496): merge a canonical `User` into the view.  The `&mut self`
receiver is embedded as explicit state passing: the function returns
the updated view. -/
def PresenceUser.update_with_user (self : PresenceUser) (user : User) : PresenceUser :=
  let s1 := { self with id := user.id }
  let s2 := match user.avatar with
    | some avatar => { s1 with avatar := some avatar }
    | none => s1
  let s3 := { s2 with bot := some user.bot }
  let s4 := { s3 with discriminator := some user.discriminator }
  let s5 := { s4 with name := some user.name }
  match user.public_flags with
  | some public_flags => { s5 with public_flags := some public_flags }
  | none => s5

/-- C4: `into_user` returns a value exactly when `bot`, `discriminator`
and `name` are all present; the returned `User` carries the view's
`id`, `avatar`, `bot`, `discriminator`, `name` and `public_flags`
unchanged with `banner`, `accent_colour` and `member` set to `None`;
it returns `None` whenever any of the three is absent, e.g. when
`name` is absent. -/
theorem into_user_contract :
    (∀ pu : PresenceUser,
      (pu.into_user).isSome
        = (pu.bot.isSome && (pu.discriminator.isSome && pu.name.isSome))) ∧
    (∀ (id : UserId) (av : Option String) (b : Bool) (d : Nat)
        (em : Option String) (mfa : Option Bool) (nm : String)
        (ver : Option Bool) (pf : Option UserPublicFlags),
      PresenceUser.into_user ⟨id, av, some b, some d, em, mfa, some nm, ver, pf⟩
        = some ⟨id, av, b, d, nm, pf, none, none, none⟩) ∧
    (∀ (id : UserId) (av : Option String) (b : Option Bool) (d : Option Nat)
        (em : Option String) (mfa : Option Bool) (ver : Option Bool)
        (pf : Option UserPublicFlags),
      PresenceUser.into_user ⟨id, av, b, d, em, mfa, none, ver, pf⟩ = none) ∧
    (∀ (id : UserId) (av : Option String) (d : Option Nat)
        (em : Option String) (mfa : Option Bool) (nm : Option String)
        (ver : Option Bool) (pf : Option UserPublicFlags),
      PresenceUser.into_user ⟨id, av, none, d, em, mfa, nm, ver, pf⟩ = none) ∧
    (∀ (id : UserId) (av : Option String) (b : Option Bool)
        (em : Option String) (mfa : Option Bool) (nm : Option String)
        (ver : Option Bool) (pf : Option UserPublicFlags),
      PresenceUser.into_user ⟨id, av, b, none, em, mfa, nm, ver, pf⟩ = none) := by
  refine ⟨?_, ?_, ?_, ?_, ?_⟩
  · rintro ⟨id, av, b, d, em, mfa, nm, ver, pf⟩
    cases b <;> cases d <;> cases nm <;> rfl
  · intros; rfl
  · rintro id av b d em mfa ver pf
    cases b <;> cases d <;> rfl
  · intros; rfl
  · rintro id av b em mfa nm ver pf
    cases b <;> rfl

/-- C5: `update_with_user` always overwrites `id`, `bot`,
`discriminator` and `name` with the canonical values; overwrites
`avatar` only when the incoming avatar is present (an absent incoming
avatar leaves the existing avatar unchanged); overwrites
`public_flags` only when the incoming value is present; and leaves
`email`, `mfa_enabled` and `verified` unchanged. -/
theorem update_with_user_frame :
    ∀ (pu : PresenceUser) (u : User),
      (pu.update_with_user u).id = u.id ∧
      (pu.update_with_user u).bot = some u.bot ∧
      (pu.update_with_user u).discriminator = some u.discriminator ∧
      (pu.update_with_user u).name = some u.name ∧
      (pu.update_with_user u).avatar
        = (match u.avatar with | some a => some a | none => pu.avatar) ∧
      (pu.update_with_user u).public_flags
        = (match u.public_flags with | some pf => some pf | none => pu.public_flags) ∧
      (pu.update_with_user u).email = pu.email ∧
      (pu.update_with_user u).mfa_enabled = pu.mfa_enabled ∧
      (pu.update_with_user u).verified = pu.verified := by
  rintro ⟨id, av, b, d, em, mfa, nm, ver, pf⟩ ⟨uid, uav, ub, ud, unm, upf, uba, uac, ume⟩
  cases uav <;> cases upf <;>
    exact ⟨rfl, rfl, rfl, rfl, rfl, rfl, rfl, rfl, rfl⟩

/-- C8: the non-consuming `to_user` agrees with the consuming
`into_user` on every view.  (Non-consumption itself is a Rust
ownership fact; in the value semantics of the embedding `to_user` is a
pure function of the view, which it cannot alter.) -/
theorem to_user_eq_into_user :
    ∀ pu : PresenceUser, pu.to_user = pu.into_user := by
  rintro ⟨id, av, b, d, em, mfa, nm, ver, pf⟩
  cases b <;> cases d <;> cases nm <;> rfl

abbrev ApplicationId := Nat
abbrev EmojiId := Nat
abbrev GuildId := Nat
abbrev ChannelId := Nat

/-- `ActivityAssets` (`src/model/gateway.rs` lines 290-299). -/
structure ActivityAssets where
  large_image : Option String
  large_text : Option String
  small_image : Option String
  small_text : Option String
  deriving DecidableEq

/-- `ActivityParty` (`src/model/gateway.rs` lines 333-338). -/
structure ActivityParty where
  id : Option String
  size : Option (Nat × Nat)
  deriving DecidableEq

/-- `ActivitySecrets` (`src/model/gateway.rs` lines 345-353); the
`match` wire member is stored as `match_`. -/
structure ActivitySecrets where
  join : Option String
  match_ : Option String
  spectate : Option String
  deriving DecidableEq

/-- `ActivityEmoji` (`src/model/gateway.rs` lines 359-366). -/
structure ActivityEmoji where
  name : String
  id : Option EmojiId
  animated : Option Bool
  deriving DecidableEq

/-- `ActivityTimestamps` (`src/model/gateway.rs` lines 562-565). -/
structure ActivityTimestamps where
  «end» : Option Nat
  start : Option Nat
  deriving DecidableEq

/-- A parsed URL of the external `url` crate; only the raw text is
relevant to this model. -/
structure Url where
  raw : String
  deriving DecidableEq

/-- A character allowed in a URL scheme after its first letter. -/
def validSchemeChar (c : Char) : Bool :=
  c.isAlphanum || c = '+' || c = '-' || c = '.'

/-- Split a character list at its first colon: the scheme candidate
and the remainder. -/
def splitScheme : List Char → Option (List Char × List Char)
  | [] => none
  | c :: rest =>
    if c = ':' then some ([], rest)
    else (splitScheme rest).map (fun p => (c :: p.1, p.2))

/-- Modelled from the external `url` crate (not part of this
repository): `Url::parse` succeeds only on an absolute URL, i.e. a
string starting with a scheme — a letter followed by
letters/digits/`+`/`-`/`.` — and a colon; a string without a scheme
(such as one containing no colon at all) fails with a relative-URL
error, here `none`. -/
def Url.parse (s : String) : Option Url :=
  match splitScheme s.toList with
  | none => none
  | some (scheme, _) =>
    match scheme with
    | [] => none
    | c :: rest =>
      if c.isAlpha && rest.all validSchemeChar then some ⟨s⟩ else none

/-- The activity record, from `Activity` in `src/model/gateway.rs`
(lines 34-76), without the two `unstable_discord_api` feature-gated
fields. -/
structure Activity where
  application_id : Option ApplicationId
  assets : Option ActivityAssets
  details : Option String
  flags : Option ActivityFlags
  «instance» : Option Bool
  kind : ActivityType
  name : String
  party : Option ActivityParty
  secrets : Option ActivitySecrets
  state : Option String
  emoji : Option ActivityEmoji
  timestamps : Option ActivityTimestamps
  url : Option Url
  buttons : List ActivityButton
  deriving DecidableEq

/-- `Activity::new` (`src/model/gateway.rs` lines 81-102): the common
constructor; every optional field `None`, empty button list. -/
def Activity.new (name : String) (kind : ActivityType) : Activity :=
  { application_id := none
    assets := none
    details := none
    flags := none
    «instance» := none
    kind
    name
    party := none
    secrets := none
    state := none
    emoji := none
    timestamps := none
    url := none
    buttons := [] }

/-- `Activity::playing` (`src/model/gateway.rs` lines 129-134). -/
def Activity.playing (name : String) : Activity :=
  Activity.new name .Playing

/-- `Activity::streaming` (`src/model/gateway.rs` lines 164-173): like
the other constructors but with `url` set to
`Url::parse(url).expect(...)`.  The `expect` panic on an unparseable
URL is embedded as `none`; a returned value is `some`. -/
def Activity.streaming (name url : String) : Option Activity :=
  match Url.parse url with
  | some u => some { Activity.new name .Streaming with url := some u }
  | none => none

/-- `Activity::listening` (`src/model/gateway.rs` lines 200-205). -/
def Activity.listening (name : String) : Activity :=
  Activity.new name .Listening

/-- `Activity::watching` (`src/model/gateway.rs` lines 232-237). -/
def Activity.watching (name : String) : Activity :=
  Activity.new name .Watching

/-- `Activity::competing` (`src/model/gateway.rs` lines 264-269). -/
def Activity.competing (name : String) : Activity :=
  Activity.new name .Competing

/-- Online status of a user (`OnlineStatus`, declared outside the
provided slice); modelled as its wire code. -/
structure OnlineStatus where
  code : Nat
  deriving DecidableEq

/-- `ClientStatus` (`src/model/gateway.rs` lines 419-423). -/
structure ClientStatus where
  desktop : Option OnlineStatus
  mobile : Option OnlineStatus
  web : Option OnlineStatus
  deriving DecidableEq

/-- The presence entry, from `Presence` in `src/model/gateway.rs`
(lines 504-517). -/
structure Presence where
  activities : List Activity
  client_status : Option ClientStatus
  guild_id : Option GuildId
  status : OnlineStatus
  user : PresenceUser
  deriving DecidableEq

/-- Modelled from the spec: a private-channel record (`Channel`,
declared outside the provided slice); only the identifier used as the
mapping key is specified by the spec (section 3). -/
structure Channel where
  id : ChannelId
  deriving DecidableEq

/-- Insert into an identifier-keyed mapping, replacing the value held
at an existing key (hash-map insert semantics: last occurrence
wins). -/
def keyed_insert (m : List (Nat × α)) (k : Nat) (v : α) : List (Nat × α) :=
  if m.any (fun p => p.1 == k) then
    m.map (fun p => if p.1 = k then (k, v) else p)
  else m ++ [(k, v)]

/-- Modelled from the spec: the keyed-collection codec (section 4.4;
the `presences` and `private_channels` serde modules referenced at
lines 527-530 are not in the provided slice).  A wire array decodes to
a mapping keyed by each element's extracted identifier, later
duplicates overwriting earlier entries. -/
def decode_keyed (key : α → Nat) (xs : List α) : List (Nat × α) :=
  xs.foldl (fun m a => keyed_insert m (key a) a) []

/-- Modelled from the spec: the `Ready.presences` field decoder
(line 527): an absent field is the empty mapping, a present wire array
is keyed by each element's `user.id`. -/
def decode_presences_field (w : Option (List Presence)) : List (Nat × Presence) :=
  match w with
  | none => []
  | some xs => decode_keyed (fun p => p.user.id) xs

/-- Modelled from the spec: the `Ready.private_channels` field decoder
(line 529): an absent field is the empty mapping, a present wire array
is keyed by each element's `id`. -/
def decode_private_channels_field (w : Option (List Channel)) : List (Nat × Channel) :=
  match w with
  | none => []
  | some xs => decode_keyed (fun c => c.id) xs

/-- Modelled from the spec: the digit parse of the `discriminator`
serde module (referenced at line 435, body not in the provided slice):
a nonempty all-digit wire string parses to the unsigned integer it
denotes. -/
def discriminator_decode (s : String) : Option Nat :=
  let cs := s.toList
  if cs.isEmpty || !cs.all Char.isDigit then none
  else some (cs.foldl (fun n c => n * 10 + (c.toNat - 48)) 0)

/-- Modelled from the spec: the `discriminator` serde module's encoder
renders the internal integer as a zero-padded four-digit string. -/
def discriminator_encode (d : Nat) : String :=
  let s := Nat.repr d
  String.mk (List.replicate (4 - s.length) '0') ++ s

/-- Modelled from the spec: the field-level discriminator decode: an
absent wire field is the absent internal value; a present string must
parse as digits, anything else is a structural error. -/
def decode_discriminator_field (w : Option String) : Except DecodeError (Option Nat) :=
  match w with
  | none => .ok none
  | some s =>
    match discriminator_decode s with
    | some d => .ok (some d)
    | none => .error .structural

/-- The field-level discriminator encode: `skip_serializing_if =
"Option::is_none"` (line 435) omits an absent value entirely, a
present value is rendered zero-padded. -/
def encode_discriminator_field (d : Option Nat) : Option String :=
  d.map discriminator_encode

/-- A concrete sample presence for the duplicate-identifier example:
user identifier `uid`, distinguished by the user name `tag`. -/
def presence_sample (uid : Nat) (tag : String) : Presence :=
  { activities := []
    client_status := none
    guild_id := none
    status := ⟨0⟩
    user :=
      { id := uid
        avatar := none
        bot := none
        discriminator := none
        email := none
        mfa_enabled := none
        name := some tag
        verified := none
        public_flags := none } }

/-- `keyed_insert` preserves the invariant that every mapping entry is
keyed by its value's extracted identifier. -/
theorem keyed_insert_all_key (key : α → Nat) (m : List (Nat × α)) (v : α)
    (h : m.all (fun p => key p.2 == p.1) = true) :
    (keyed_insert m (key v) v).all (fun p => key p.2 == p.1) = true := by
  unfold keyed_insert
  split
  · rw [List.all_eq_true] at h ⊢
    intro p hp
    rw [List.mem_map] at hp
    obtain ⟨q, hq, rfl⟩ := hp
    by_cases hk : q.1 = key v
    · simp [hk]
    · simpa [hk] using h q hq
  · rw [List.all_eq_true] at h ⊢
    intro p hp
    rw [List.mem_append] at hp
    rcases hp with hp | hp
    · exact h p hp
    · simp only [List.mem_singleton] at hp
      subst hp
      simp

/-- Auxiliary fold invariant for `decode_keyed`. -/
theorem decode_keyed_all_aux (key : α → Nat) (xs : List α) :
    ∀ m : List (Nat × α), m.all (fun p => key p.2 == p.1) = true →
      (xs.foldl (fun m a => keyed_insert m (key a) a) m).all
        (fun p => key p.2 == p.1) = true := by
  induction xs with
  | nil => intro m hm; simpa using hm
  | cons a xs ih =>
    intro m hm
    exact ih _ (keyed_insert_all_key key m a hm)

/-- Every entry of a decoded keyed collection is keyed by its value's
extracted identifier. -/
theorem decode_keyed_all_key (key : α → Nat) (xs : List α) :
    (decode_keyed key xs).all (fun p => key p.2 == p.1) = true :=
  decode_keyed_all_aux key xs [] rfl

/-- C6: decoded presences are keyed by each element's `user.id` and
decoded private channels by each element's `id`; an absent wire field
decodes to the empty mapping; and an input with user identifiers
`[7, 3, 7]` yields a two-entry mapping in which key `7` holds the last
occurrence's value. -/
theorem keyed_collection_contract :
    (∀ xs : List Presence,
      (decode_presences_field (some xs)).all (fun p => p.2.user.id == p.1) = true) ∧
    (∀ xs : List Channel,
      (decode_private_channels_field (some xs)).all (fun p => p.2.id == p.1) = true) ∧
    decode_presences_field none = [] ∧
    decode_private_channels_field none = [] ∧
    decode_presences_field
        (some [presence_sample 7 "first", presence_sample 3 "mid", presence_sample 7 "last"])
      = [(7, presence_sample 7 "last"), (3, presence_sample 3 "mid")] := by
  refine ⟨?_, ?_, rfl, rfl, ?_⟩
  · intro xs
    exact decode_keyed_all_key (fun p => p.user.id) xs
  · intro xs
    exact decode_keyed_all_key (fun c => c.id) xs
  · decide

/-- C7: the discriminator wire string `"0042"` decodes to the internal
integer `42`; encoding `42` yields the zero-padded `"0042"`; an absent
field decodes to the absent internal value and is omitted entirely on
encode. -/
theorem discriminator_codec_contract :
    discriminator_decode "0042" = some 42 ∧
    discriminator_encode 42 = "0042" ∧
    decode_discriminator_field none = .ok none ∧
    encode_discriminator_field none = none := by
  refine ⟨by decide, by decide, rfl, rfl⟩

/-- C10: `Activity::streaming` panics (returns no value in the
embedding) on the unparseable URL string `"not a url"`, while it does
return a value on a well-formed absolute URL; the other per-kind
constructors are total functions of their name, always returning an
activity of the corresponding kind. -/
theorem streaming_not_total :
    Activity.streaming "foo" "not a url" = none ∧
    (Activity.streaming "foo" "https://example.com/x").isSome = true ∧
    (∀ n, (Activity.playing n).kind = .Playing ∧ (Activity.playing n).name = n) ∧
    (∀ n, (Activity.listening n).kind = .Listening ∧ (Activity.listening n).name = n) ∧
    (∀ n, (Activity.watching n).kind = .Watching ∧ (Activity.watching n).name = n) ∧
    (∀ n, (Activity.competing n).kind = .Competing ∧ (Activity.competing n).name = n) := by
  refine ⟨by decide, by decide, ?_, ?_, ?_, ?_⟩ <;>
    exact fun n => ⟨rfl, rfl⟩

end Gateway
